import Mathlib

/-!
Shallow embedding of the Wolt disabled-items monitor (src/index.js).

The embedding models:
  * the in-page extractor `scrapeDisabledItems` as a pure function over a
    model of the DOM rows that the querySelector calls observe;
  * the reconciler `sendToAppsScript` and the tick `doScrape` as pure
    state-transition functions over explicit state records, with the
    outcomes of the fallible browser operations supplied as oracle inputs;
  * the list materializer `scrollToLoadAll` as a fuel-bounded loop over an
    oracle giving the content height measured at each iteration;
  * the session check `checkLoginStatus` over a model of the inspected page.

JavaScript string operations (trim, toUpperCase, the concrete regexes of
index.js) are modelled character-list by character-list below.
-/

namespace WoltMonitor

/-- Whitespace as matched by the JavaScript regex class and by
`String.prototype.trim`: ordinary ASCII whitespace plus NBSP (U+00A0),
vertical tab and form feed. -/
def isJsWs (c : Char) : Bool :=
  c.isWhitespace || c = Char.ofNat 160 || c = Char.ofNat 11 || c = Char.ofNat 12

/-- Model of `String.prototype.trim`. -/
def jsTrim (s : String) : String :=
  (((s.toList.dropWhile isJsWs).reverse.dropWhile isJsWs).reverse).asString

/-- Model of `String.prototype.toUpperCase` (ASCII-faithful). -/
def jsToUpper (s : String) : String :=
  (s.toList.map Char.toUpper).asString

/-- Replace every NBSP (U+00A0) by a space: `.replace(/ /g, ' ')`. -/
def replaceNbsp (s : String) : String :=
  (s.toList.map (fun c => if c = Char.ofNat 160 then ' ' else c)).asString

/-- One step of `.replace(/ALL\s*/i, '')`: remove the first case-insensitive
occurrence of `ALL` together with the whitespace run following it. -/
def stripALLws : List Char → List Char
  | a :: b :: c :: rest =>
    if a.toUpper = 'A' && b.toUpper = 'L' && c.toUpper = 'L' then
      rest.dropWhile isJsWs
    else
      a :: stripALLws (b :: c :: rest)
  | l => l

/-- Model of `.replace(/ALL/gi, '')`: remove all case-insensitive
occurrences of `ALL`, scanning left to right. -/
def removeALLci : List Char → List Char
  | a :: b :: c :: rest =>
    if a.toUpper = 'A' && b.toUpper = 'L' && c.toUpper = 'L' then
      removeALLci rest
    else
      a :: removeALLci (b :: c :: rest)
  | l => l

/-- Model of `.replace(/[()]/g, '')`. -/
def removeParens (l : List Char) : List Char :=
  l.filter (fun c => c ≠ '(' && c ≠ ')')

/-- Whether `pat` is a prefix of `l` (decidable helper for substring
matching). -/
def prefixMatches : List Char → List Char → Bool
  | [], _ => true
  | _ :: _, [] => false
  | p :: ps, c :: cs => p = c && prefixMatches ps cs

/-- Whether `pat` occurs as a contiguous substring of the list, modelling
`String.prototype.includes`. -/
def containsSub (pat : List Char) : List Char → Bool
  | [] => prefixMatches pat []
  | c :: cs => prefixMatches pat (c :: cs) || containsSub pat cs

/-- String-level `includes`. -/
def strIncludes (hay pat : String) : Bool :=
  containsSub pat.toList hay.toList

/-- Model of `.replace(needle, '')` with a plain-string pattern: remove the
first literal occurrence of `needle` (no occurrence, or an empty needle at
a nonempty position, leaves the list unchanged apart from the JS rule that
an empty pattern matches at position 0). -/
def removeFirstStr (needle : List Char) : List Char → List Char
  | [] => []
  | c :: cs =>
    if needle ≠ [] && prefixMatches needle (c :: cs) then
      (c :: cs).drop needle.length
    else
      c :: removeFirstStr needle cs

/-- Drop `pat` from the front of `l`, or fail. -/
def dropPrefixChars : List Char → List Char → Option (List Char)
  | [], rest => some rest
  | _ :: _, [] => none
  | p :: ps, c :: cs => if p = c then dropPrefixChars ps cs else none

/-- Model of the tag regex `/^DISABLED CHOICE\s*\(\d+\)$/` applied to the
already-uppercased tag text. -/
def matchDisabledChoice (s : String) : Bool :=
  match dropPrefixChars "DISABLED CHOICE".toList s.toList with
  | none => false
  | some rest =>
    match rest.dropWhile isJsWs with
    | '(' :: r =>
      let ds := r.takeWhile Char.isDigit
      let r2 := r.dropWhile Char.isDigit
      !ds.isEmpty && r2 = [')']
    | _ => false

/-- Whether the list contains the (case-sensitive) substring `ALL`. -/
def containsALLcs : List Char → Bool
  | 'A' :: 'L' :: 'L' :: _ => true
  | _ :: rest => containsALLcs rest
  | [] => false

/-- Split at the first occurrence of an opening parenthesis, yielding the
chars before it and the chars after it. -/
def splitAtFirstOpenParen : List Char → Option (List Char × List Char)
  | [] => none
  | '(' :: rest => some ([], rest)
  | c :: rest => (splitAtFirstOpenParen rest).map (fun p => (c :: p.1, p.2))

/-- Model of `.replace(/\s*\([^)]*ALL[^)]*\)\s*$/, '')`: strip a trailing
parenthesized clause containing `ALL` (case-sensitive inside the regex),
together with the whitespace around it, when the string ends with one;
otherwise return the string unchanged.  The parenthesized content may not
contain a close paren, so the clause lies after the last close paren of
the remaining body, and the regex engine picks the leftmost open paren in
that zone. -/
def stripTrailingParenALL (s : String) : String :=
  let cs := s.toList
  match (cs.reverse.dropWhile isJsWs) with
  | ')' :: bodyRev =>
    let body := bodyRev.reverse
    let zone := (bodyRev.takeWhile (fun c => c ≠ ')')).reverse
    let beforeZone := body.take (body.length - zone.length)
    match splitAtFirstOpenParen zone with
    | some (pre, inner) =>
      if containsALLcs inner then
        (((beforeZone ++ pre).reverse.dropWhile isJsWs).reverse).asString
      else s
    | none => s
  | _ => s

/-- Model of `.replace(/,\s*$/, '')`: drop a trailing comma together with
the whitespace following it. -/
def stripTrailingComma (s : String) : String :=
  match s.toList.reverse.dropWhile isJsWs with
  | ',' :: rest => rest.reverse.asString
  | _ => s

/-- The price normalization chain
`.replace(/ALL\s*/i, '').replace(/ /g, ' ').trim()` applied to an
already-trimmed text. -/
def normPriceText (s : String) : String :=
  jsTrim (replaceNbsp (stripALLws s.toList).asString)

/-!
### Data model for the extractor `scrapeDisabledItems` (src/index.js 271-377)

The extractor runs in page context over the node list
`document.querySelectorAll('[class*="gQlFER"]')`.  A `Row` models, for one
such row node, exactly the query results the extractor reads from it: the
`textContent` of each selected element (`none` when the selector matches
nothing) and the relevant span lists.
-/

/-- A `span[disabled]` node inside an option row: the trimmed-at-source
`textContent` of the span and the text of its price element, when any. -/
structure SpanData where
  priceEl : Option String
  fullText : String
deriving DecidableEq, Repr

/-- A `span[dir="auto"][lang]` node used by the fallback option path:
its `className`, whether it carries the `disabled` attribute, and the same
text fields as the primary spans. -/
structure AutoSpan where
  className : String
  hasDisabledAttr : Bool
  priceEl : Option String
  fullText : String
deriving DecidableEq, Repr

/-- One row node as observed by the extractor (raw `textContent` values of
the selector hits; `none` when the selector finds nothing in the row). -/
structure Row where
  /-- `row.querySelector('[class*="itoaO"]')` (category header). -/
  categoryEl : Option String
  /-- `row.querySelectorAll('[class*="al-Tag-lbl-d84"]')` text contents. -/
  tagTexts : List String
  /-- `row.querySelector('[class*="hgTNKZ"], [class*="al-t-caption-label"]')`. -/
  nameEl : Option String
  /-- `row.querySelector('[class*="iWwtCn"]')`. -/
  descEl : Option String
  /-- `row.querySelector('[class*="cgreXg"]')`. -/
  priceEl : Option String
  /-- `row.querySelector('[class*="al-t-caption-label"]')`. -/
  groupNameEl : Option String
  /-- `row.querySelectorAll('span[disabled]')`. -/
  disabledSpans : List SpanData
  /-- `row.querySelectorAll('span[dir="auto"][lang]')`. -/
  autoSpans : List AutoSpan
deriving DecidableEq, Repr

/-- One extracted record, as pushed onto `items`.  `optionGroup` is `none`
on item records, which lack the field in the source. -/
structure DisabledRecord where
  name : String
  description : String
  price : String
  category : String
  type : String
  optionGroup : Option String
deriving DecidableEq, Repr

/-- The `hasDisabledTag` flag of a row: some tag text, trimmed and
uppercased, equals `DISABLED` exactly. -/
def rowHasDisabledTag (row : Row) : Bool :=
  row.tagTexts.any (fun t => jsToUpper (jsTrim t) == "DISABLED")

/-- The `hasDisabledChoice` flag of a row: some tag text, trimmed and
uppercased, matches `/^DISABLED CHOICE\s*\(\d+\)$/`. -/
def rowHasDisabledChoice (row : Row) : Bool :=
  row.tagTexts.any (fun t => matchDisabledChoice (jsToUpper (jsTrim t)))

/-- CASE 1 of the extractor: the single item record pushed for a
standalone disabled row (src/index.js 297-308). -/
def itemRecordOf (row : Row) (currentCategory : String) : DisabledRecord :=
  { name := match row.nameEl with | some t => jsTrim t | none => "Unknown"
    description := match row.descEl with | some t => jsTrim t | none => ""
    price := normPriceText (match row.priceEl with | some t => jsTrim t | none => "")
    category := currentCategory
    type := "item"
    optionGroup := none }

/-- The option-name normalization chain of src/index.js 323-328: strip a
trailing parenthesized ALL-clause; if that changed nothing and a price is
known, instead delete the price text, every `ALL`, all parens and NBSPs;
finally drop a trailing comma. -/
def optionNameOf (fullText price : String) : String :=
  let n1 := jsTrim (stripTrailingParenALL fullText)
  let n2 :=
    if n1 == fullText && price ≠ "" then
      jsTrim (replaceNbsp (removeParens (removeALLci
        (removeFirstStr price.toList fullText.toList))).asString)
    else n1
  jsTrim (stripTrailingComma n2)

/-- The records pushed for one disabled-choice span (src/index.js
317-340): empty-named options are dropped by the `if (optionName)` guard. -/
def optionFromSpan (groupName currentCategory : String)
    (priceEl : Option String) (fullTextRaw : String) : List DisabledRecord :=
  let price := match priceEl with | some t => normPriceText (jsTrim t) | none => ""
  let fullText := jsTrim fullTextRaw
  let optionName := optionNameOf fullText price
  if optionName ≠ "" then
    [{ name := optionName
       description := "Option in: " ++ groupName
       price := price
       category := currentCategory
       type := "option"
       optionGroup := some groupName }]
  else []

/-- CASE 2 of the extractor (src/index.js 311-372): option records from
the `span[disabled]` list, with the `span[dir="auto"][lang]` fallback used
when that list is empty. -/
def optionRecordsOf (row : Row) (currentCategory : String) : List DisabledRecord :=
  let groupName := match row.groupNameEl with
    | some t => jsTrim t
    | none => "Unknown Option Group"
  let primary := row.disabledSpans.flatMap
    (fun sp => optionFromSpan groupName currentCategory sp.priceEl sp.fullText)
  let fallback :=
    if row.disabledSpans.length = 0 then
      row.autoSpans.flatMap (fun sp =>
        if strIncludes sp.className "jQyrIl" || sp.hasDisabledAttr then
          optionFromSpan groupName currentCategory sp.priceEl sp.fullText
        else [])
    else []
  primary ++ fallback

/-- Processing of one row of the `forEach` body (src/index.js 278-373):
a category-header row updates the running category and emits nothing; any
other row emits its CASE 1 record when `hasDisabledTag` and its CASE 2
records when `hasDisabledChoice` — the two cases are separate `if`s. -/
def processRow (currentCategory : String) (row : Row) :
    String × List DisabledRecord :=
  match row.categoryEl with
  | some t => (jsTrim t, [])
  | none =>
    let itemRecs :=
      if rowHasDisabledTag row then [itemRecordOf row currentCategory] else []
    let optionRecs :=
      if rowHasDisabledChoice row then optionRecordsOf row currentCategory else []
    (currentCategory, itemRecs ++ optionRecs)

/-- The extractor `scrapeDisabledItems` (src/index.js 271-377): fold over
the rows in document order with the running category starting at
`Uncategorized`, concatenating the records each row pushes. -/
def scrapeDisabledItems (rows : List Row) : List DisabledRecord :=
  (rows.foldl
    (fun (acc : String × List DisabledRecord) row =>
      let r := processRow acc.1 row
      (r.1, acc.2 ++ r.2))
    ("Uncategorized", [])).2

/-!
### Reconciler `sendToAppsScript` (src/index.js 155-194)

The hash of src/index.js 161 is
`JSON.stringify(items.map(i => i.type + ":" + i.name).sort())`.
`JSON.stringify` is injective on arrays of strings, so the hash is
modelled as the sorted key list itself; the initial sentinel value `''`
of `lastSentHash` (which no stringify output equals) is modelled as
`none`.  Timestamps are `Date.now()` milliseconds, modelled as `Int`.
The HTTP request itself is fire-and-forget — its callbacks only log — so
the model returns a `Bool` recording whether a request was issued.
-/

/-- The sort key `i.type + ":" + i.name` of one record. -/
def fingerprintKey (r : DisabledRecord) : String :=
  r.type ++ ":" ++ r.name

/-- The fingerprint of a snapshot: the sorted list of per-record keys
(`items.map(...).sort()`; `Array.prototype.sort` orders strings
lexicographically). -/
def fingerprint (items : List DisabledRecord) : List String :=
  List.insertionSort (fun a b : String => a ≤ b) (items.map fingerprintKey)

/-- The module-level state read and written by `sendToAppsScript`. -/
structure SheetState where
  /-- `lastSentHash` (initially `''`, modelled `none`). -/
  lastSentHash : Option (List String)
  /-- `lastSheetSendTimestamp` (initially `0`). -/
  lastSheetSendTimestamp : Int
  /-- `lastSendTime` (an ISO string in the source; modelled as the send
  instant, initially `null`). -/
  lastSendTime : Option Int
deriving DecidableEq, Repr

/-- The configuration values `sendToAppsScript` consults. -/
structure Config where
  /-- Whether `CONFIG.APPS_SCRIPT_URL` is non-empty. -/
  appsScriptUrlSet : Bool
  /-- `CONFIG.SHEET_SEND_INTERVAL` (default 300000 ms). -/
  sheetSendInterval : Int
deriving DecidableEq, Repr

/-- `sendToAppsScript(items)` (src/index.js 155-194) at time `now`:
returns whether an HTTP request was issued, and the updated state. -/
def sendToAppsScript (cfg : Config) (items : List DisabledRecord)
    (now : Int) (st : SheetState) : Bool × SheetState :=
  if !cfg.appsScriptUrlSet then (false, st)
  else
    let hash := fingerprint items
    if st.lastSentHash = some hash ∧ now - st.lastSheetSendTimestamp < cfg.sheetSendInterval then
      (false, st)
    else
      (true,
       { lastSentHash := some hash
         lastSheetSendTimestamp := now
         lastSendTime := some now })

/-!
### The tick `doScrape` (src/index.js 443-516) and `restartBrowser` (518-529)

`doScrape` is modelled as a pure transition on the module-level state it
touches.  The outcomes of the fallible browser operations of one tick are
supplied as an oracle (`TickEnv`): `checkLoginStatus` and
`dismissCookieBanner` never throw (both catch internally), so the fallible
region of the `try` block is scroll-and-extract (`scrapeResult`, `none`
modelling a raised exception) followed by the cookie save
(`cookieSaveOk`); the cache-clear block at 491-497 has its own inner
`try` and is invisible to the state.  `restartBrowser` closes and
relaunches the browser and restarts the timer; it touches none of the
counters modelled here, so it appears only as the `restartInvoked` flag.
-/

/-- The module-level mutable state a tick reads and writes. -/
structure MonState where
  totalScrapes : Nat
  isLoggedIn : Bool
  loginAlertSent : Bool
  /-- `lastScrapeTime` (ISO string in source, modelled as instant). -/
  lastScrapeTime : Option Int
  lastItems : List DisabledRecord
  scrapeErrors : Nat
  sheet : SheetState
deriving DecidableEq, Repr

/-- Oracle for one tick: what the browser operations would return. -/
structure TickEnv where
  /-- Result of `checkLoginStatus()` (never throws). -/
  loggedIn : Bool
  /-- Result of scroll-and-extract: `some items`, or `none` for a raised
  exception anywhere in that region. -/
  scrapeResult : Option (List DisabledRecord)
  /-- Whether `page.cookies()`/`saveCookies` after the scrape succeed. -/
  cookieSaveOk : Bool
  /-- Whether `page.reload(...)` in the escalation path succeeds. -/
  reloadOk : Bool
  /-- The current time of this tick. -/
  now : Int
deriving DecidableEq, Repr

/-- Observable outcome of one tick. -/
structure TickResult where
  state : MonState
  /-- Whether the session-expired WhatsApp alert was sent this tick. -/
  loginAlertFired : Bool
  /-- Whether a tabular-sink request was issued this tick. -/
  sheetSent : Bool
  /-- Whether `page.reload` was attempted this tick. -/
  reloadAttempted : Bool
  /-- Whether `restartBrowser()` was invoked this tick. -/
  restartInvoked : Bool
deriving DecidableEq, Repr

/-- The `catch` block of `doScrape` (src/index.js 499-515):
`scrapeErrors++`; at the threshold 5 attempt `page.reload`, resetting the
counter on success; on reload failure invoke `restartBrowser()` (which
does not touch the counter). -/
def catchBlock (env : TickEnv) (s : MonState) : MonState × Bool × Bool :=
  let s := { s with scrapeErrors := s.scrapeErrors + 1 }
  if s.scrapeErrors ≥ 5 then
    if env.reloadOk then ({ s with scrapeErrors := 0 }, true, false)
    else (s, true, true)
  else (s, false, false)

/-- One tick of `doScrape` (src/index.js 443-516). -/
def doScrape (cfg : Config) (env : TickEnv) (s : MonState) : TickResult :=
  let s := { s with totalScrapes := s.totalScrapes + 1 }
  if !env.loggedIn then
    let fired := !s.loginAlertSent
    { state := { s with isLoggedIn := false, loginAlertSent := true }
      loginAlertFired := fired
      sheetSent := false
      reloadAttempted := false
      restartInvoked := false }
  else
    let s := { s with isLoggedIn := true, loginAlertSent := false }
    match env.scrapeResult with
    | some items =>
      let s := { s with
        lastScrapeTime := some env.now
        lastItems := items
        scrapeErrors := 0 }
      let send :=
        if items.length > 0 then sendToAppsScript cfg items env.now s.sheet
        else (false, s.sheet)
      let s := { s with sheet := send.2 }
      if env.cookieSaveOk then
        { state := s
          loginAlertFired := false
          sheetSent := send.1
          reloadAttempted := false
          restartInvoked := false }
      else
        let esc := catchBlock env s
        { state := esc.1
          loginAlertFired := false
          sheetSent := send.1
          reloadAttempted := esc.2.1
          restartInvoked := esc.2.2 }
    | none =>
      let esc := catchBlock env s
      { state := esc.1
        loginAlertFired := false
        sheetSent := false
        reloadAttempted := esc.2.1
        restartInvoked := esc.2.2 }

/-- A run of consecutive ticks, returning the final state and the number
of session-expired alerts sent along the run. -/
def runTicks (cfg : Config) (s : MonState) : List TickEnv → MonState × Nat
  | [] => (s, 0)
  | e :: es =>
    let r := doScrape cfg e s
    let rest := runTicks cfg r.state es
    (rest.1, (if r.loginAlertFired then 1 else 0) + rest.2)

/-!
### List materializer `scrollToLoadAll` (src/index.js 382-418)

The loop body scrolls by 800, waits, and measures the content height; the
measurements are supplied by the oracle `heightAt : Nat → Nat` (the height
observed at the i-th iteration).  The loop state is `lastHeight`
(initially 0) and `sameCount` (initially 0); after the loop the scroll
position is set back to 0 unconditionally.
-/

/-- The `for` loop of `scrollToLoadAll`, counting the iterations executed.
`fuel` is the remaining trip budget (25 at entry), `i` the iteration
index feeding the height oracle. -/
def scrollSteps (heightAt : Nat → Nat) : Nat → Nat → Nat → Nat → Nat
  | 0, _, _, _ => 0
  | fuel + 1, i, lastHeight, sameCount =>
    let currentHeight := heightAt i
    if currentHeight = lastHeight then
      if sameCount + 1 ≥ 3 then 1
      else 1 + scrollSteps heightAt fuel (i + 1) currentHeight (sameCount + 1)
    else 1 + scrollSteps heightAt fuel (i + 1) currentHeight 0

/-- Outcome of `scrollToLoadAll`: iterations executed and the scroll
position on return. -/
structure ScrollOutcome where
  iterations : Nat
  finalScrollTop : Nat
deriving DecidableEq, Repr

/-- `scrollToLoadAll` (src/index.js 382-418): run the bounded loop, then
`window.scrollTo(0, 0)` / `container.scrollTop = 0` unconditionally. -/
def scrollToLoadAll (heightAt : Nat → Nat) (initialScrollTop : Nat) : ScrollOutcome :=
  let _ := initialScrollTop
  { iterations := scrollSteps heightAt 25 0 0 0
    finalScrollTop := 0 }

/-!
### Session check `checkLoginStatus` (src/index.js 423-438)
-/

/-- What the check inspects on the page: the URL and the facts probed by
the `page.evaluate` of src/index.js 428-433. -/
structure PageView where
  url : String
  /-- `!!document.querySelector('input[type="email"]')`. -/
  hasEmailInput : Bool
  /-- `!!document.querySelector('[class*="login"]')`. -/
  hasLoginClassEl : Bool
  /-- `document.body.textContent`. -/
  bodyText : String
deriving DecidableEq, Repr

/-- The login-page markers of `checkLoginStatus`: a login/auth URL
substring, an email input, a login-class element, or sign-in copy. -/
def loginMarker (p : PageView) : Bool :=
  (strIncludes p.url "/login" || strIncludes p.url "/auth") ||
  (p.hasEmailInput || p.hasLoginClassEl ||
   strIncludes p.bodyText "Sign in" || strIncludes p.bodyText "Log in")

/-- `checkLoginStatus()` (src/index.js 423-438): `none` models the
inspection itself throwing (caught, returning `false`); otherwise the page
is authenticated exactly when no marker matches. -/
def checkLoginStatus (inspection : Option PageView) : Bool :=
  match inspection with
  | none => false
  | some p => !(loginMarker p)

/-!
## Theorems
-/

/-- Claim C3: the fingerprint computed over a record sequence is
order-independent — for every sequence of records and every permutation of
it, the fingerprints coincide. -/
theorem C3_fingerprint_order_independent (l₁ l₂ : List DisabledRecord)
    (h : l₁.Perm l₂) : fingerprint l₁ = fingerprint l₂ := by
  unfold fingerprint
  exact @List.eq_of_perm_of_sorted String (fun a b : String => a ≤ b) _ _ _
    ((List.perm_insertionSort _ _).trans
      ((h.map fingerprintKey).trans (List.perm_insertionSort _ _).symm))
    (List.sorted_insertionSort _ _) (List.sorted_insertionSort _ _)

/-- A sample item record (for witnesses). -/
def recItemW : DisabledRecord :=
  { name := "Pizza", description := "", price := "900",
    category := "Drinks", type := "item", optionGroup := none }

/-- A sample option record (for witnesses). -/
def recOptW : DisabledRecord :=
  { name := "Extra cheese", description := "Option in: Toppings", price := "120",
    category := "Uncategorized", type := "option", optionGroup := some "Toppings" }

/-- Witness for C3 at a concrete two-element swap. -/
theorem C3_witness :
    fingerprint [recItemW, recOptW] = fingerprint [recOptW, recItemW] :=
  C3_fingerprint_order_independent [recItemW, recOptW] [recOptW, recItemW]
    (List.Perm.swap recOptW recItemW [])

/-- Claim C5: the session monitor is fail-closed — it reports
not-authenticated whenever any login-page marker matches or the inspection
itself throws (modelled by `none`), an inspection error is never reported
as authenticated, and authenticated is reported exactly when the
inspection succeeded with no marker matching.  The model `checkLoginStatus`
is a pure function of the inspected page, with no side effects. -/
theorem C5_checkLoginStatus_fail_closed (inspection : Option PageView) :
    (inspection = none → checkLoginStatus inspection = false)
    ∧ (∀ p, inspection = some p → loginMarker p = true →
        checkLoginStatus inspection = false)
    ∧ (checkLoginStatus inspection = true ↔
        ∃ p, inspection = some p ∧ loginMarker p = false) := by
  refine ⟨?_, ?_, ?_⟩
  · intro h; subst h; rfl
  · intro p hp hm; subst hp; simp [checkLoginStatus, hm]
  · cases inspection with
    | none => simp [checkLoginStatus]
    | some p => simp [checkLoginStatus]

/-- A page view showing the login form (for witnesses). -/
def pvExpiredW : PageView :=
  { url := "https://merchant.wolt.com/login", hasEmailInput := true,
    hasLoginClassEl := false, bodyText := "Sign in to continue" }

/-- A page view with no login marker (for witnesses). -/
def pvOkW : PageView :=
  { url := "https://merchant.wolt.com/menu", hasEmailInput := false,
    hasLoginClassEl := false, bodyText := "Menu items" }

/-- Witness for C5 at concrete inspections: a thrown inspection and a
marker-bearing page both report not-authenticated; a clean page reports
authenticated. -/
theorem C5_witness :
    checkLoginStatus none = false
    ∧ checkLoginStatus (some pvExpiredW) = false
    ∧ checkLoginStatus (some pvOkW) = true :=
  ⟨(C5_checkLoginStatus_fail_closed none).1 rfl,
   (C5_checkLoginStatus_fail_closed (some pvExpiredW)).2.1 pvExpiredW rfl (by decide),
   (C5_checkLoginStatus_fail_closed (some pvOkW)).2.2.mpr ⟨pvOkW, rfl, by decide⟩⟩

/-- The scroll loop never runs longer than its fuel. -/
theorem scrollSteps_le_fuel (heightAt : Nat → Nat) :
    ∀ fuel i last same, scrollSteps heightAt fuel i last same ≤ fuel := by
  intro fuel
  induction fuel with
  | zero => intro i last same; simp [scrollSteps]
  | succ n ih =>
    intro i last same
    simp only [scrollSteps]
    split
    · split
      · omega
      · have := ih (i + 1) (heightAt i) (same + 1); omega
    · have := ih (i + 1) (heightAt i) 0; omega

/-- Once the oracle is constant from index `N` and the loop state already
carries the constant as `lastHeight`, at most `3 - min same 2` further
iterations run. -/
theorem scrollSteps_const_carried (heightAt : Nat → Nat) (N H : Nat)
    (hconst : ∀ j, N ≤ j → heightAt j = H) :
    ∀ fuel i same, N ≤ i →
      scrollSteps heightAt fuel i H same ≤ 3 - min same 2 := by
  intro fuel
  induction fuel with
  | zero => intro i same _; simp [scrollSteps]
  | succ n ih =>
    intro i same hi
    simp only [scrollSteps]
    rw [hconst i hi, if_pos rfl]
    split
    · omega
    · have := ih (i + 1) (same + 1) (by omega)
      omega

/-- Once the oracle is constant from index `N`, at most four further
iterations run from any loop state at or past `N`. -/
theorem scrollSteps_const_any (heightAt : Nat → Nat) (N H : Nat)
    (hconst : ∀ j, N ≤ j → heightAt j = H) :
    ∀ fuel i last same, N ≤ i →
      scrollSteps heightAt fuel i last same ≤ 4 := by
  intro fuel i last same hi
  cases fuel with
  | zero => simp [scrollSteps]
  | succ n =>
    simp only [scrollSteps]
    rw [hconst i hi]
    split
    · split
      · omega
      · have := scrollSteps_const_carried heightAt N H hconst n (i + 1) (same + 1) (by omega)
        omega
    · have := scrollSteps_const_carried heightAt N H hconst n (i + 1) 0 (by omega)
      omega

/-- Convergence bound: if the oracle is constant from index `N`, the loop
started at index `i` runs at most `N - i + 4` iterations. -/
theorem scrollSteps_converges (heightAt : Nat → Nat) (N H : Nat)
    (hconst : ∀ j, N ≤ j → heightAt j = H) :
    ∀ fuel i last same, scrollSteps heightAt fuel i last same ≤ (N - i) + 4 := by
  intro fuel
  induction fuel with
  | zero => intro i last same; simp [scrollSteps]
  | succ n ih =>
    intro i last same
    by_cases hi : N ≤ i
    · have := scrollSteps_const_any heightAt N H hconst (n + 1) i last same hi
      omega
    · simp only [scrollSteps]
      split
      · split
        · omega
        · have := ih (i + 1) (heightAt i) (same + 1); omega
      · have := ih (i + 1) (heightAt i) 0; omega

/-- Claim C7: the list materializer performs at most 25 scroll iterations;
it always sets the scroll position back to the origin before returning,
however the loop ended; and it stops early under the convergence
heuristic — when the measured heights are constant from iteration `N` on,
at most `N + 4` iterations run (three consecutive unchanged measurements
after at most one changed one at `N`). -/
theorem C7_scrollToLoadAll_bounded (heightAt : Nat → Nat) (initialScrollTop : Nat) :
    (scrollToLoadAll heightAt initialScrollTop).iterations ≤ 25
    ∧ (scrollToLoadAll heightAt initialScrollTop).finalScrollTop = 0
    ∧ (∀ N H, (∀ j, N ≤ j → heightAt j = H) →
        (scrollToLoadAll heightAt initialScrollTop).iterations ≤ N + 4) := by
  refine ⟨scrollSteps_le_fuel heightAt 25 0 0 0, rfl, ?_⟩
  intro N H hconst
  have h := scrollSteps_converges heightAt N H hconst 25 0 0 0
  show scrollSteps heightAt 25 0 0 0 ≤ N + 4
  omega

/-- Witness for C7: a page whose measured height is 500 from the start
converges after four iterations, and the scroll position returns to the
origin from a nonzero initial offset. -/
theorem C7_witness :
    (scrollToLoadAll (fun _ => 500) 1600).iterations ≤ 0 + 4
    ∧ (scrollToLoadAll (fun _ => 500) 1600).finalScrollTop = 0 :=
  ⟨(C7_scrollToLoadAll_bounded (fun _ => 500) 1600).2.2 0 500 (fun _ _ => rfl),
   (C7_scrollToLoadAll_bounded (fun _ => 500) 1600).2.1⟩

/-- Behaviour of `sendToAppsScript` when the sink URL is configured: a
request is issued exactly when the fingerprint changed or the minimum
resend interval elapsed; an issued request updates all three state fields
(before the request is even written, hence independently of delivery);
a suppressed call leaves the state untouched. -/
theorem sendToAppsScript_spec (cfg : Config) (items : List DisabledRecord)
    (now : Int) (st : SheetState) (hcfg : cfg.appsScriptUrlSet = true) :
    ((sendToAppsScript cfg items now st).1 = true ↔
      (some (fingerprint items) ≠ st.lastSentHash ∨
        now - st.lastSheetSendTimestamp ≥ cfg.sheetSendInterval))
    ∧ ((sendToAppsScript cfg items now st).1 = true →
        (sendToAppsScript cfg items now st).2 =
          { lastSentHash := some (fingerprint items)
            lastSheetSendTimestamp := now
            lastSendTime := some now })
    ∧ ((sendToAppsScript cfg items now st).1 = false →
        (sendToAppsScript cfg items now st).2 = st) := by
  unfold sendToAppsScript
  rw [hcfg]
  simp only [Bool.not_true, Bool.false_eq_true, if_false]
  by_cases h : st.lastSentHash = some (fingerprint items) ∧
      now - st.lastSheetSendTimestamp < cfg.sheetSendInterval
  · obtain ⟨hh, hlt⟩ := h
    rw [if_pos ⟨hh, hlt⟩]
    refine ⟨?_, ?_, fun _ => rfl⟩
    · simp only [Bool.false_eq_true, false_iff]
      rintro (hne | hge)
      · exact hne hh.symm
      · omega
    · intro hx; exact absurd hx (by simp)
  · rw [if_neg h]
    refine ⟨?_, fun _ => rfl, ?_⟩
    · simp only [true_iff]
      by_cases hh : st.lastSentHash = some (fingerprint items)
      · refine Or.inr ?_
        by_contra hge
        exact h ⟨hh, by omega⟩
      · exact Or.inl (fun hx => hh hx.symm)
    · intro hx; exact absurd hx (by simp)

/-- On a successfully-scraped tick, `doScrape` calls the reconciler only
when the snapshot is non-empty, and the final sheet state is exactly what
that call produced (the later cookie save and escalation never touch it). -/
theorem doScrape_sheet_step (cfg : Config) (env : TickEnv) (s : MonState)
    (items : List DisabledRecord)
    (hlog : env.loggedIn = true) (hscrape : env.scrapeResult = some items) :
    (doScrape cfg env s).sheetSent =
      (if items.length > 0 then sendToAppsScript cfg items env.now s.sheet
       else (false, s.sheet)).1
    ∧ (doScrape cfg env s).state.sheet =
      (if items.length > 0 then sendToAppsScript cfg items env.now s.sheet
       else (false, s.sheet)).2 := by
  unfold doScrape
  rw [hlog, hscrape]
  simp only [Bool.not_true, Bool.false_eq_true, if_false]
  by_cases hc : env.cookieSaveOk
  · simp [hc]
  · simp [hc, catchBlock]

/-- Claim C2: on a tick whose scrape succeeded (with the sink configured),
a tabular-sink request is issued iff the snapshot is non-empty and its
fingerprint differs from the stored one or the minimum resend interval has
elapsed; a send attempt updates the stored fingerprint and both send
timestamps (the update precedes the fire-and-forget request, so it is
independent of delivery); an empty snapshot issues no request and leaves
the reconciler state untouched. -/
theorem C2_reconciler_send_iff (cfg : Config) (env : TickEnv) (s : MonState)
    (items : List DisabledRecord)
    (hcfg : cfg.appsScriptUrlSet = true)
    (hlog : env.loggedIn = true) (hscrape : env.scrapeResult = some items) :
    ((doScrape cfg env s).sheetSent = true ↔
      (items ≠ [] ∧
        (some (fingerprint items) ≠ s.sheet.lastSentHash ∨
          env.now - s.sheet.lastSheetSendTimestamp ≥ cfg.sheetSendInterval)))
    ∧ ((doScrape cfg env s).sheetSent = true →
        (doScrape cfg env s).state.sheet =
          { lastSentHash := some (fingerprint items)
            lastSheetSendTimestamp := env.now
            lastSendTime := some env.now })
    ∧ (items = [] →
        (doScrape cfg env s).sheetSent = false ∧
        (doScrape cfg env s).state.sheet = s.sheet) := by
  obtain ⟨h1, h2⟩ := doScrape_sheet_step cfg env s items hlog hscrape
  obtain ⟨g1, g2, g3⟩ := sendToAppsScript_spec cfg items env.now s.sheet hcfg
  by_cases hne : items = []
  · subst hne
    simp only [List.length_nil, gt_iff_lt, lt_irrefl, if_false] at h1 h2
    refine ⟨?_, ?_, fun _ => ⟨h1, h2⟩⟩
    · rw [h1]; simp
    · rw [h1]; simp
  · have hlen : items.length > 0 := List.length_pos.mpr hne
    rw [if_pos hlen] at h1 h2
    refine ⟨?_, ?_, fun he => absurd he hne⟩
    · rw [h1, g1]; simp [hne]
    · intro hs; rw [h1] at hs; rw [h2, g2 hs]

/-- Concrete tick inputs for the C2 witness. -/
def cfgW : Config := { appsScriptUrlSet := true, sheetSendInterval := 300000 }

/-- A fresh sheet state (sentinel hash, zero timestamp). -/
def sheetInitW : SheetState :=
  { lastSentHash := none, lastSheetSendTimestamp := 0, lastSendTime := none }

/-- A starting monitor state for witnesses. -/
def monInitW : MonState :=
  { totalScrapes := 0, isLoggedIn := false, loginAlertSent := false,
    lastScrapeTime := none, lastItems := [], scrapeErrors := 0,
    sheet := sheetInitW }

/-- A successful tick observing one disabled item. -/
def envOkW : TickEnv :=
  { loggedIn := true, scrapeResult := some [recItemW], cookieSaveOk := true,
    reloadOk := true, now := 1000 }

/-- Witness for C2: the first non-empty snapshot against a fresh state
issues a request. -/
theorem C2_witness : (doScrape cfgW envOkW monInitW).sheetSent = true :=
  (C2_reconciler_send_iff cfgW envOkW monInitW [recItemW] rfl rfl rfl).1.mpr
    ⟨by decide, Or.inl (fun h => Option.noConfusion h)⟩

/-- Shape of a failed-scrape tick: the catch block runs on the state as of
the login check, whose only changes so far are the tick counter and the
login flags. -/
theorem doScrape_error_case (cfg : Config) (env : TickEnv) (s : MonState)
    (hlog : env.loggedIn = true) (hfail : env.scrapeResult = none) :
    doScrape cfg env s =
      (let s1 : MonState :=
        { s with totalScrapes := s.totalScrapes + 1,
                 isLoggedIn := true, loginAlertSent := false }
       let esc := catchBlock env s1
       { state := esc.1, loginAlertFired := false, sheetSent := false,
         reloadAttempted := esc.2.1, restartInvoked := esc.2.2 }) := by
  unfold doScrape
  rw [hlog, hfail]
  rfl

/-- Claim C4 counterexample: with four prior consecutive errors, a fifth
failing tick reaches the threshold and the soft reload also fails; the
hard restart is invoked, yet the error counter is left at 5, not reset to
zero — refuting that the counter resets after either recovery path
regardless of that action's own success. -/
theorem C4_counterexample :
    (doScrape cfgW
        { loggedIn := true, scrapeResult := none, cookieSaveOk := true,
          reloadOk := false, now := 1000 }
        { monInitW with scrapeErrors := 4 }).restartInvoked = true
    ∧ (doScrape cfgW
        { loggedIn := true, scrapeResult := none, cookieSaveOk := true,
          reloadOk := false, now := 1000 }
        { monInitW with scrapeErrors := 4 }).state.scrapeErrors = 5 := by
  constructor <;> rfl

/-- Claim C4 (amended): the consecutive-error counter resets to zero after
a fully successful tick and after a soft page reload that succeeds; when
the soft reload fails, the hard browser restart is invoked and the counter
is left at its incremented value, not reset. -/
theorem C4_error_counter_reset (cfg : Config) (env : TickEnv) (s : MonState) :
    (∀ items, env.loggedIn = true → env.scrapeResult = some items →
      env.cookieSaveOk = true → (doScrape cfg env s).state.scrapeErrors = 0)
    ∧ (env.loggedIn = true → env.scrapeResult = none →
        s.scrapeErrors + 1 ≥ 5 → env.reloadOk = true →
        (doScrape cfg env s).reloadAttempted = true ∧
        (doScrape cfg env s).state.scrapeErrors = 0)
    ∧ (env.loggedIn = true → env.scrapeResult = none →
        s.scrapeErrors + 1 ≥ 5 → env.reloadOk = false →
        (doScrape cfg env s).reloadAttempted = true ∧
        (doScrape cfg env s).restartInvoked = true ∧
        (doScrape cfg env s).state.scrapeErrors = s.scrapeErrors + 1) := by
  refine ⟨?_, ?_, ?_⟩
  · intro items hlog hscrape hcookie
    unfold doScrape
    rw [hlog, hscrape]
    simp [hcookie]
  · intro hlog hfail hthr hrel
    rw [doScrape_error_case cfg env s hlog hfail]
    simp only [catchBlock]
    rw [if_pos (by omega : s.scrapeErrors + 1 ≥ 5), if_pos hrel]
    exact ⟨rfl, rfl⟩
  · intro hlog hfail hthr hrel
    rw [doScrape_error_case cfg env s hlog hfail]
    simp only [catchBlock]
    rw [if_pos (by omega : s.scrapeErrors + 1 ≥ 5), if_neg (by simp [hrel])]
    exact ⟨rfl, rfl, rfl⟩

/-- Witness for C4 (amended): a successful tick resets the counter from 3
to 0; a failed fifth tick with a succeeding reload resets it to 0. -/
theorem C4_witness :
    (doScrape cfgW envOkW { monInitW with scrapeErrors := 3 }).state.scrapeErrors = 0
    ∧ (doScrape cfgW
        { loggedIn := true, scrapeResult := none, cookieSaveOk := true,
          reloadOk := true, now := 1000 }
        { monInitW with scrapeErrors := 4 }).state.scrapeErrors = 0 :=
  ⟨(C4_error_counter_reset cfgW envOkW { monInitW with scrapeErrors := 3 }).1
      [recItemW] rfl rfl rfl,
   ((C4_error_counter_reset cfgW
      { loggedIn := true, scrapeResult := none, cookieSaveOk := true,
        reloadOk := true, now := 1000 }
      { monInitW with scrapeErrors := 4 }).2.1 rfl rfl (by decide) rfl).2⟩

/-- Claim C9: a tick whose scraping portion raises leaves the prior
snapshot untouched — the stored items, the last scrape time and the
reconciler state are unchanged, no sink request is issued — and the
consecutive-error counter is incremented (then reset only by a successful
soft reload at the threshold). -/
theorem C9_failed_tick_frame (cfg : Config) (env : TickEnv) (s : MonState)
    (hlog : env.loggedIn = true) (hfail : env.scrapeResult = none) :
    (doScrape cfg env s).state.lastItems = s.lastItems
    ∧ (doScrape cfg env s).state.lastScrapeTime = s.lastScrapeTime
    ∧ (doScrape cfg env s).state.sheet = s.sheet
    ∧ (doScrape cfg env s).sheetSent = false
    ∧ (doScrape cfg env s).state.scrapeErrors =
        (if s.scrapeErrors + 1 ≥ 5 ∧ env.reloadOk = true then 0
         else s.scrapeErrors + 1) := by
  rw [doScrape_error_case cfg env s hlog hfail]
  simp only [catchBlock]
  by_cases hthr : s.scrapeErrors + 1 ≥ 5
  · by_cases hrel : env.reloadOk
    · rw [if_pos hthr, if_pos hrel]
      refine ⟨by trivial, by trivial, by trivial, by trivial, ?_⟩
      rw [if_pos ⟨hthr, hrel⟩]
    · rw [if_pos hthr, if_neg (by simp [hrel])]
      refine ⟨by trivial, by trivial, by trivial, by trivial, ?_⟩
      rw [if_neg (by simp [hrel])]
  · rw [if_neg hthr]
    refine ⟨by trivial, by trivial, by trivial, by trivial, ?_⟩
    rw [if_neg (by simp [hthr] : ¬(s.scrapeErrors + 1 ≥ 5 ∧ env.reloadOk = true))]

/-- Witness for C9: a failed tick on a state holding one prior record
keeps the record and the scrape time, and bumps the counter from 0 to 1. -/
theorem C9_witness :
    (doScrape cfgW
        { loggedIn := true, scrapeResult := none, cookieSaveOk := true,
          reloadOk := true, now := 2000 }
        { monInitW with lastItems := [recItemW], lastScrapeTime := some 500 }
      ).state.lastItems = [recItemW]
    ∧ (doScrape cfgW
        { loggedIn := true, scrapeResult := none, cookieSaveOk := true,
          reloadOk := true, now := 2000 }
        { monInitW with lastItems := [recItemW], lastScrapeTime := some 500 }
      ).state.lastScrapeTime = some 500 := by
  have h := C9_failed_tick_frame cfgW
    { loggedIn := true, scrapeResult := none, cookieSaveOk := true,
      reloadOk := true, now := 2000 }
    { monInitW with lastItems := [recItemW], lastScrapeTime := some 500 }
    rfl rfl
  exact ⟨h.1, h.2.1⟩

/-- A tick observing an expired session fires the alert exactly when the
latch was clear, and always leaves the latch set. -/
theorem doScrape_expired (cfg : Config) (env : TickEnv) (s : MonState)
    (hlog : env.loggedIn = false) :
    (doScrape cfg env s).loginAlertFired = !s.loginAlertSent
    ∧ (doScrape cfg env s).state.loginAlertSent = true := by
  unfold doScrape
  rw [hlog]
  exact ⟨rfl, rfl⟩

/-- The catch block never touches the login-alert latch. -/
theorem catchBlock_state_loginAlertSent (env : TickEnv) (s : MonState) :
    (catchBlock env s).1.loginAlertSent = s.loginAlertSent := by
  dsimp only [catchBlock]
  split
  · split <;> rfl
  · rfl

/-- A tick observing an authenticated session clears the latch, on every
continuation of the tick (success, scrape failure, cookie-save failure). -/
theorem doScrape_authenticated_clears (cfg : Config) (env : TickEnv) (s : MonState)
    (hlog : env.loggedIn = true) :
    (doScrape cfg env s).state.loginAlertSent = false := by
  cases hsr : env.scrapeResult with
  | none =>
    rw [doScrape_error_case cfg env s hlog hsr]
    exact catchBlock_state_loginAlertSent env _
  | some items =>
    unfold doScrape
    rw [hlog, hsr]
    simp only [Bool.not_true, Bool.false_eq_true, if_false]
    by_cases hc : env.cookieSaveOk
    · simp [hc]
    · simp only [hc, Bool.false_eq_true, if_false]
      exact catchBlock_state_loginAlertSent env _

/-- Over any run of ticks that all observe an expired session, a set latch
stays set and no alert is fired. -/
theorem runTicks_expired_latched (cfg : Config) :
    ∀ (envs : List TickEnv) (s : MonState),
      (∀ e ∈ envs, e.loggedIn = false) → s.loginAlertSent = true →
      (runTicks cfg s envs).2 = 0 ∧ (runTicks cfg s envs).1.loginAlertSent = true := by
  intro envs
  induction envs with
  | nil => intro s _ hs; exact ⟨rfl, hs⟩
  | cons e es ih =>
    intro s hall hs
    have he : e.loggedIn = false := hall e (List.mem_cons_self e es)
    obtain ⟨hf, hl⟩ := doScrape_expired cfg e s he
    have hrest := ih (doScrape cfg e s).state
      (fun x hx => hall x (List.mem_cons_of_mem e hx)) hl
    simp only [runTicks, hf, hs, Bool.not_true, hrest.1, hrest.2]
    exact ⟨rfl, trivial⟩

/-- Claim C6: the login-expiry alert fires at most once per
Authenticated-to-Expired transition.  With the latch clear, a non-empty
run of consecutive expired checks fires exactly one alert (on its first
tick); with the latch already set, such a run fires none and leaves the
latch set; and the latch is re-armed (cleared) exactly by a tick that
observes the session authenticated again. -/
theorem C6_alert_latch (cfg : Config) (s : MonState) (envs : List TickEnv)
    (hall : ∀ e ∈ envs, e.loggedIn = false) :
    (s.loginAlertSent = true →
      (runTicks cfg s envs).2 = 0 ∧ (runTicks cfg s envs).1.loginAlertSent = true)
    ∧ (s.loginAlertSent = false → envs ≠ [] → (runTicks cfg s envs).2 = 1)
    ∧ (∀ e, e.loggedIn = true → (doScrape cfg e s).state.loginAlertSent = false) := by
  refine ⟨fun hs => runTicks_expired_latched cfg envs s hall hs, ?_, ?_⟩
  · intro hs hne
    cases envs with
    | nil => exact absurd rfl hne
    | cons e es =>
      have he : e.loggedIn = false := hall e (List.mem_cons_self e es)
      obtain ⟨hf, hl⟩ := doScrape_expired cfg e s he
      have hrest := runTicks_expired_latched cfg es (doScrape cfg e s).state
        (fun x hx => hall x (List.mem_cons_of_mem e hx)) hl
      simp [runTicks, hf, hs, hrest.1]
  · intro e he
    exact doScrape_authenticated_clears cfg e s he

/-- Witness for C6: from a cleared latch, two consecutive expired ticks
fire exactly one alert; an authenticated tick clears a set latch. -/
theorem C6_witness :
    (runTicks cfgW monInitW
      [{ loggedIn := false, scrapeResult := none, cookieSaveOk := true,
         reloadOk := true, now := 0 },
       { loggedIn := false, scrapeResult := none, cookieSaveOk := true,
         reloadOk := true, now := 20 }]).2 = 1
    ∧ (doScrape cfgW envOkW { monInitW with loginAlertSent := true }
        ).state.loginAlertSent = false := by
  have h := C6_alert_latch cfgW monInitW
    [{ loggedIn := false, scrapeResult := none, cookieSaveOk := true,
       reloadOk := true, now := 0 },
     { loggedIn := false, scrapeResult := none, cookieSaveOk := true,
       reloadOk := true, now := 20 }]
    (by intro e he; fin_cases he <;> rfl)
  have h2 := C6_alert_latch cfgW { monInitW with loginAlertSent := true } []
    (by intro e he; cases he)
  exact ⟨h.2.1 rfl (by simp), h2.2.2 envOkW rfl⟩

/-- Every record emitted for one disabled-choice span is an option record
with a non-empty name (the `if (optionName)` guard) carrying the group. -/
theorem optionFromSpan_mem (g c : String) (pe : Option String) (ft : String)
    (r : DisabledRecord) (hr : r ∈ optionFromSpan g c pe ft) :
    r.type = "option" ∧ r.name ≠ "" ∧ r.optionGroup = some g := by
  dsimp only [optionFromSpan] at hr
  split at hr
  case isTrue h =>
    rw [List.mem_singleton] at hr
    subst hr
    exact ⟨rfl, h, rfl⟩
  case isFalse h => cases hr

/-- Every record of CASE 2 is an option record with a non-empty name and
a present option group. -/
theorem optionRecordsOf_mem (row : Row) (cat : String) (r : DisabledRecord)
    (hr : r ∈ optionRecordsOf row cat) :
    r.type = "option" ∧ r.name ≠ "" ∧ r.optionGroup.isSome = true := by
  dsimp only [optionRecordsOf] at hr
  rw [List.mem_append] at hr
  rcases hr with hr | hr
  · rw [List.mem_flatMap] at hr
    obtain ⟨sp, _, hm⟩ := hr
    obtain ⟨h1, h2, h3⟩ := optionFromSpan_mem _ _ _ _ r hm
    exact ⟨h1, h2, by rw [h3]; rfl⟩
  · split at hr
    · rw [List.mem_flatMap] at hr
      obtain ⟨sp, _, hm⟩ := hr
      split at hm
      · obtain ⟨h1, h2, h3⟩ := optionFromSpan_mem _ _ _ _ r hm
        exact ⟨h1, h2, by rw [h3]; rfl⟩
      · cases hm
    · cases hr

/-- Every record a single row emits is an item record, or an option record
with a non-empty name and present group. -/
theorem processRow_mem (cat : String) (row : Row) (r : DisabledRecord)
    (hr : r ∈ (processRow cat row).2) :
    r.type = "item" ∨
      (r.type = "option" ∧ r.name ≠ "" ∧ r.optionGroup.isSome = true) := by
  rcases hc : row.categoryEl with _ | t
  · simp only [processRow, hc] at hr
    rw [List.mem_append] at hr
    rcases hr with hr | hr
    · split at hr
      · rw [List.mem_singleton] at hr
        subst hr
        exact Or.inl rfl
      · cases hr
    · split at hr
      · exact Or.inr (optionRecordsOf_mem row cat r hr)
      · cases hr
  · simp only [processRow, hc] at hr
    cases hr

/-- Membership through the category-carrying fold of the extractor. -/
theorem scrape_fold_mem :
    ∀ (rows : List Row) (cat : String) (acc : List DisabledRecord)
      (r : DisabledRecord),
      r ∈ (rows.foldl
        (fun (a : String × List DisabledRecord) row =>
          let p := processRow a.1 row
          (p.1, a.2 ++ p.2)) (cat, acc)).2 →
      r ∈ acc ∨ ∃ c row, r ∈ (processRow c row).2 := by
  intro rows
  induction rows with
  | nil => intro cat acc r hr; exact Or.inl hr
  | cons row rows ih =>
    intro cat acc r hr
    rw [List.foldl_cons] at hr
    rcases ih _ _ _ hr with h | h
    · rw [List.mem_append] at h
      rcases h with h | h
      · exact Or.inl h
      · exact Or.inr ⟨cat, row, h⟩
    · exact Or.inr h

/-- Claim C1 (amended): every record the extractor emits is an item record
or an option record; every option record has a non-empty name (empty-named
option extractions are dropped by the guard) and carries an `optionGroup`
field.  The original claim fails for item names: see the counterexample. -/
theorem C1_option_records_wellformed (rows : List Row) (r : DisabledRecord)
    (hr : r ∈ scrapeDisabledItems rows) :
    r.type = "item" ∨
      (r.type = "option" ∧ r.name ≠ "" ∧ r.optionGroup.isSome = true) := by
  rcases scrape_fold_mem rows "Uncategorized" [] r hr with h | ⟨c, row, h⟩
  · cases h
  · exact processRow_mem c row r h

/-- A standalone disabled row whose name element exists but holds only
whitespace. -/
def rowBlankNameW : Row :=
  { categoryEl := none, tagTexts := ["DISABLED"], nameEl := some "  ",
    descEl := none, priceEl := none, groupNameEl := none,
    disabledSpans := [], autoSpans := [] }

/-- An option-group row whose group-name element holds only whitespace. -/
def rowBlankGroupW : Row :=
  { categoryEl := none, tagTexts := ["DISABLED CHOICE (1)"], nameEl := none,
    descEl := none, priceEl := none, groupNameEl := some " ",
    disabledSpans := [{ priceEl := none, fullText := "Olives" }],
    autoSpans := [] }

/-- Claim C1 counterexample: the extractor does emit a record whose name
is empty after trimming — a disabled item row whose name element holds
only whitespace produces `name = ""` (the emptiness guard exists only on
the option path) — and it does emit an option record whose `optionGroup`
is empty, when the group-name element holds only whitespace. -/
theorem C1_counterexample :
    (rowBlankNameW.nameEl = some "  "
      ∧ ¬ (∀ r ∈ scrapeDisabledItems [rowBlankNameW], jsTrim r.name ≠ ""))
    ∧ (rowBlankGroupW.groupNameEl = some " "
      ∧ (scrapeDisabledItems [rowBlankGroupW]).map
          (fun r => (r.type, r.optionGroup)) = [("option", some "")]) := by
  refine ⟨⟨rfl, ?_⟩, rfl, by decide⟩
  intro h
  exact h { name := "", description := "", price := "",
            category := "Uncategorized", type := "item", optionGroup := none }
    (by decide) (by decide)

/-- An option row used as a C1 witness input. -/
def rowOptW : Row :=
  { categoryEl := none, tagTexts := ["DISABLED CHOICE (2)"], nameEl := none,
    descEl := none, priceEl := none, groupNameEl := some "Toppings",
    disabledSpans := [{ priceEl := some "120 ALL", fullText := "Extra cheese (120 ALL)" }],
    autoSpans := [] }

/-- Witness for C1 (amended) at a concrete option extraction. -/
theorem C1_witness :
    recOptW ∈ scrapeDisabledItems [rowOptW]
    ∧ (recOptW.type = "item" ∨
        (recOptW.type = "option" ∧ recOptW.name ≠ "" ∧
          recOptW.optionGroup.isSome = true)) :=
  ⟨by decide, C1_option_records_wellformed [rowOptW] recOptW (by decide)⟩

/-- CASE 2 contributes no record of type `item`. -/
theorem optionRecordsOf_filter_item (row : Row) (cat : String) :
    (optionRecordsOf row cat).filter (fun r => r.type == "item") = [] := by
  rw [List.filter_eq_nil_iff]
  intro r hr
  have h := (optionRecordsOf_mem row cat r hr).1
  simp [h]

/-- Claim C8 (amended): a row classified as a standalone disabled item
emits exactly one record of kind `item`; the description and price fields
are null-safe — an absent element yields the empty string — while an
absent name element yields the placeholder `Unknown` rather than the empty
string (see the counterexample); no case raises. -/
theorem C8_standalone_item (cat : String) (row : Row)
    (hcat : row.categoryEl = none) (htag : rowHasDisabledTag row = true) :
    ((processRow cat row).2.filter (fun r => r.type == "item"))
      = [itemRecordOf row cat]
    ∧ (row.nameEl = none → (itemRecordOf row cat).name = "Unknown")
    ∧ (row.descEl = none → (itemRecordOf row cat).description = "")
    ∧ (row.priceEl = none → (itemRecordOf row cat).price = "") := by
  refine ⟨?_, ?_, ?_, ?_⟩
  · simp only [processRow, hcat]
    rw [if_pos htag, List.filter_append]
    have hopts :
        ((if rowHasDisabledChoice row = true then optionRecordsOf row cat
          else []).filter (fun r => r.type == "item")) = [] := by
      split
      · exact optionRecordsOf_filter_item row cat
      · rfl
    rw [hopts, List.append_nil]
    simp [itemRecordOf]
  · intro h; simp [itemRecordOf, h]
  · intro h; simp [itemRecordOf, h]
  · intro h; simp [itemRecordOf, h]; rfl

/-- A standalone disabled row with no name, description or price element. -/
def rowNoNameW : Row :=
  { categoryEl := none, tagTexts := ["DISABLED"], nameEl := none,
    descEl := none, priceEl := none, groupNameEl := none,
    disabledSpans := [], autoSpans := [] }

/-- Claim C8 counterexample: when the name element is absent the emitted
record's name is the placeholder `Unknown`, not the empty string the claim
asserts for all three fields. -/
theorem C8_counterexample :
    rowNoNameW.nameEl = none
    ∧ scrapeDisabledItems [rowNoNameW] =
        [{ name := "Unknown", description := "", price := "",
           category := "Uncategorized", type := "item", optionGroup := none }]
    ∧ "Unknown" ≠ "" := by
  refine ⟨rfl, by decide, by decide⟩

/-- Witness for C8 (amended) at a concrete row: one item record with the
defaulted fields. -/
theorem C8_witness :
    ((processRow "Uncategorized" rowNoNameW).2.filter (fun r => r.type == "item"))
      = [itemRecordOf rowNoNameW "Uncategorized"]
    ∧ (itemRecordOf rowNoNameW "Uncategorized").name = "Unknown"
    ∧ (itemRecordOf rowNoNameW "Uncategorized").description = ""
    ∧ (itemRecordOf rowNoNameW "Uncategorized").price = "" := by
  have h := C8_standalone_item "Uncategorized" rowNoNameW rfl (by decide)
  exact ⟨h.1, h.2.1 rfl, h.2.2.1 rfl, h.2.2.2 rfl⟩

/-- Claim C10: the two row classifications are independent, not mutually
exclusive — on a non-header row carrying both a `DISABLED` tag and a
`DISABLED CHOICE (n)` tag, the row emits the single item record followed
by the option records, and a singleton row list extracts exactly that. -/
theorem C10_both_classifications (cat : String) (row : Row)
    (hcat : row.categoryEl = none)
    (htag : rowHasDisabledTag row = true)
    (hchoice : rowHasDisabledChoice row = true) :
    (processRow cat row).2 = itemRecordOf row cat :: optionRecordsOf row cat
    ∧ scrapeDisabledItems [row] =
        itemRecordOf row "Uncategorized" :: optionRecordsOf row "Uncategorized" := by
  have hp : ∀ c, (processRow c row).2 =
      itemRecordOf row c :: optionRecordsOf row c := by
    intro c
    simp only [processRow, hcat]
    rw [if_pos htag, if_pos hchoice]
    rfl
  refine ⟨hp cat, ?_⟩
  show ([] ++ (processRow "Uncategorized" row).2) = _
  rw [List.nil_append, hp "Uncategorized"]

/-- A row carrying both the standalone-disabled tag and a disabled-choice
tag. -/
def rowBothW : Row :=
  { categoryEl := none, tagTexts := ["DISABLED", "DISABLED CHOICE (1)"],
    nameEl := some "Burger", descEl := none, priceEl := some "700 ALL",
    groupNameEl := some "Extras",
    disabledSpans := [{ priceEl := some "50 ALL", fullText := "Bacon (50 ALL)" }],
    autoSpans := [] }

/-- Witness for C10 at a concrete dual-tagged row. -/
theorem C10_witness :
    scrapeDisabledItems [rowBothW] =
      itemRecordOf rowBothW "Uncategorized"
        :: optionRecordsOf rowBothW "Uncategorized" :=
  (C10_both_classifications "Uncategorized" rowBothW rfl (by decide) (by decide)).2

end WoltMonitor
